import Mathlib

/-!
Shallow embedding of the Freyja publishing/authentication layer.

Sources embedded:
- src/publishing/twitter_oauth_publisher.py  (TwitterOAuthPublisher)
- src/publishing/twitter_publisher.py        (TwitterPublisher)
- src/review_system/approval_dashboard/web_interface.py (FixedTwitterPublisher)

Python dictionaries returned by the publishers are modelled as structures
with Option fields (a missing key is none).  Outbound network calls and
file-system operations performed by a method are returned as an explicit
list of Effect values; an empty list means no call was made.  Exceptions
raised by the tweepy library or the file system are modelled as oracle
arguments (an inductive outcome passed to the function), since the Python
code wraps every such call in try/except.
-/

namespace Freyja

/-- Cached user profile, as built by TwitterOAuthPublisher from
tweepy verify_credentials (username, name, followers, following,
profile_image, user_id). -/
structure UserInfo where
  username : String
  name : String
  followers : Nat
  following : Nat
  profile_image : String
  user_id : String
deriving DecidableEq

/-- User profile of TwitterPublisher (API v2 get_me: username, name, id). -/
structure TwitterUserInfo where
  username : String
  name : String
  id : Nat
deriving DecidableEq

/-- Result dictionary returned by the publish methods.  Option fields model
keys that are absent from some of the Python result dictionaries. -/
structure PublishResult where
  success : Bool
  tweet_id : Option String := none
  url : Option String := none
  username : Option String := none
  message : Option String := none
  error : Option String := none
  simulation : Option Bool := none
  method : Option String := none
deriving DecidableEq

/-- Outbound network calls and file-system operations a method performs. -/
inductive Effect where
  | updateStatus (content : String)
  | createTweet (content : String)
  | verifyCredentials
  | getAccessToken (requestToken verifier : String)
  | makeDirs (path : String)
  | openWrite (path : String)
  | renameFile (src dst : String)
  | removeFile (path : String)
deriving DecidableEq

/-- Truthiness of an optional string, as Python evaluates os.getenv
results: None and the empty string are falsy. -/
def truthy : Option String → Bool
  | none => false
  | some s => !(s == "")

/-- Python's lazy disjunction `a or b` on optional strings. -/
def pyOr (a b : Option String) : Option String :=
  if truthy a then a else b

/-- Path of the persisted token file used throughout
twitter_oauth_publisher.py. -/
def tokenFile : String := "data/twitter_user_tokens.json"

/-- Configuration of a tweepy API client object; the only field the spec
claims talk about is wait_on_rate_limit. -/
structure ClientCfg where
  wait_on_rate_limit : Bool
deriving DecidableEq

/-- In-memory state of TwitterOAuthPublisher.  request_token = none models
the attribute not existing (hasattr false): it is only assigned by
get_authorization_url. -/
structure OAuthState where
  app_api_key : Option String
  app_api_secret : Option String
  user_access_token : Option String
  user_access_secret : Option String
  user_info : Option UserInfo
  client : Option ClientCfg
  auth_handler : Bool
  request_token : Option String
deriving DecidableEq

/-- State right after __init__ ran _init_oauth but before any token was
loaded or obtained: no user tokens, no client, no request token. -/
def freshState (appKey appSecret : Option String) : OAuthState :=
  { app_api_key := appKey
    app_api_secret := appSecret
    user_access_token := none
    user_access_secret := none
    user_info := none
    client := none
    auth_handler := truthy appKey && truthy appSecret
    request_token := none }

/-- Contents of the persisted token JSON object; .get on a missing key
yields none. -/
structure TokenJson where
  access_token : Option String
  access_token_secret : Option String
  user_info : Option UserInfo
  saved_at : String
deriving DecidableEq

/-- State of the persisted token file on disk: absent, present but not
valid JSON (json.load raises), or a parsed JSON object. -/
inductive FileState where
  | absent
  | unparsable
  | valid (j : TokenJson)
deriving DecidableEq

/-- TwitterOAuthPublisher._save_user_tokens: makes the data directory,
then opens data/twitter_user_tokens.json directly in write mode and dumps
the JSON object.  Returns the resulting file contents and the file
operations performed, in order.  There is no temporary file and no
rename. -/
def saveUserTokens (t ts : String) (ui : Option UserInfo) (now : String) :
    FileState × List Effect :=
  (FileState.valid ⟨some t, some ts, ui, now⟩,
   [Effect.makeDirs "data", Effect.openWrite tokenFile])

/-- TwitterOAuthPublisher._create_client: requires app credentials and both
user tokens; builds tweepy.API(auth, wait_on_rate_limit=True), then calls
verify_credentials (outcome given by the oracle `verify`; none means the
call raised).  On success stores the profile and re-saves the token file;
on failure sets client back to None.  Returns (state, return value,
effects). -/
def createClient (s : OAuthState) (verify : Option UserInfo) (now : String) :
    OAuthState × Bool × List Effect :=
  if truthy s.app_api_key && truthy s.app_api_secret &&
     truthy s.user_access_token && truthy s.user_access_secret then
    match verify with
    | none => ({ s with client := none }, false, [Effect.verifyCredentials])
    | some ui =>
      ({ s with client := some ⟨true⟩, user_info := some ui }, true,
       Effect.verifyCredentials ::
         (saveUserTokens (s.user_access_token.getD "") (s.user_access_secret.getD "")
           (some ui) now).2)
  else
    (s, false, [])

/-- TwitterOAuthPublisher._load_user_tokens: reads the token file.  A
missing file is skipped; a json.load exception is caught and logged; a
parsed object sets the three fields from .get and, when both tokens are
truthy, calls _create_client. -/
def loadUserTokens (s : OAuthState) (fs : FileState) (verify : Option UserInfo)
    (now : String) : OAuthState × List Effect :=
  match fs with
  | FileState.absent => (s, [])
  | FileState.unparsable => (s, [])
  | FileState.valid j =>
    let s1 := { s with
      user_access_token := j.access_token
      user_access_secret := j.access_token_secret
      user_info := j.user_info }
    if truthy s1.user_access_token && truthy s1.user_access_secret then
      let r := createClient s1 verify now
      (r.1, r.2.2)
    else
      (s1, [])

/-- TwitterOAuthPublisher.disconnect: clears the four in-memory fields
first, then removes the token file if it exists; a removal exception makes
it return False, but the fields are already cleared. -/
def disconnect (s : OAuthState) (fileExists removeFails : Bool) :
    OAuthState × Bool × List Effect :=
  let s1 := { s with
    user_access_token := none
    user_access_secret := none
    user_info := none
    client := none }
  if fileExists then
    (s1, !removeFails, [Effect.removeFile tokenFile])
  else
    (s1, true, [])

/-- File contents after a successful disconnect: the token file has been
removed. -/
def clearFile (_ : FileState) : FileState := FileState.absent

/-- TwitterOAuthPublisher.is_connected. -/
def isConnected (s : OAuthState) : Bool :=
  s.client.isSome && s.user_info.isSome

/-- Outcome of the auth_handler.get_authorization_url network call:
none means the call raised, some rt means a request token rt was
obtained. -/
def requestTokenOutcome := Option String

/-- TwitterOAuthPublisher.get_authorization_url: guarded by auth_handler
and app credentials; on success stores the request token.  Returns
(state, returned url or None). -/
def getAuthorizationUrl (s : OAuthState) (outcome : Option String) :
    OAuthState × Option String :=
  if s.auth_handler = false then
    (s, none)
  else if !(truthy s.app_api_key && truthy s.app_api_secret) then
    (s, none)
  else
    match outcome with
    | none => (s, none)
    | some rt =>
      ({ s with request_token := some rt },
       some ("https://api.twitter.com/oauth/authorize?oauth_token=" ++ rt))

/-- Outcome of auth_handler.get_access_token during
complete_authorization: the call raised, or it returned an access token
pair; `verify` is the outcome of the verify_credentials call that
_create_client then makes. -/
inductive ExchangeOutcome where
  | failure
  | exchanged (t ts : String) (verify : Option UserInfo)
deriving DecidableEq

/-- TwitterOAuthPublisher.complete_authorization: returns False
immediately (no network) when the auth handler is missing or the
request_token attribute was never set; otherwise performs the access-token
exchange with the stored request token, stores the returned tokens and
runs _create_client.  The request token is never deleted, before or after
success. -/
def completeAuthorization (s : OAuthState) (verifier : String)
    (o : ExchangeOutcome) (now : String) : OAuthState × Bool × List Effect :=
  match s.request_token with
  | none => (s, false, [])
  | some rt =>
    if s.auth_handler = false then
      (s, false, [])
    else
      match o with
      | ExchangeOutcome.failure =>
        (s, false, [Effect.getAccessToken rt verifier])
      | ExchangeOutcome.exchanged t ts verify =>
        let s1 := { s with user_access_token := some t, user_access_secret := some ts }
        let r := createClient s1 verify now
        (r.1, r.2.1, Effect.getAccessToken rt verifier :: r.2.2)

/-- Outcome of the tweepy v1.1 update_status call made by publish_tweet:
success with the new tweet id and the posting user's screen name, or one
of the exceptions the Python code catches. -/
inductive UpdateOutcome where
  | ok (id : Nat) (screenName : String)
  | tooManyRequests (retryHint : Option Nat)
  | forbidden (msg : String)
  | exn (msg : String)
deriving DecidableEq

/-- TwitterOAuthPublisher.publish_tweet: without a client it fails with a
login-required error and no network call; otherwise it resolves the user
info (cached, or one verify_credentials call whose outcome is the oracle
`freshVerify`), then posts via update_status and maps the outcome to a
result dictionary.  The TooManyRequests handler returns a fixed message
and ignores any retry hint carried by the exception. -/
def oauthPublishTweet (s : OAuthState) (content : String)
    (freshVerify : Option UserInfo) (o : UpdateOutcome) :
    PublishResult × List Effect :=
  match s.client with
  | none =>
    ({ success := false
       error := some "Not connected to Twitter. Please login first."
       message := some "Twitter login required" }, [])
  | some _ =>
    let fetched : Option UserInfo × List Effect :=
      match s.user_info with
      | some ui => (some ui, [])
      | none => (freshVerify, [Effect.verifyCredentials])
    match fetched.1 with
    | none =>
      ({ success := false
         error := some "Cannot get user information"
         message := some "Failed to get Twitter user info" }, fetched.2)
    | some ui =>
      let effs := fetched.2 ++ [Effect.updateStatus content]
      match o with
      | UpdateOutcome.ok id _ =>
        ({ success := true
           tweet_id := some (toString id)
           url := some ("https://twitter.com/" ++ ui.username ++ "/status/" ++ toString id)
           username := some ui.username
           message := some ("Tweet posted to @" ++ ui.username)
           method := some "api_v1.1" }, effs)
      | UpdateOutcome.tooManyRequests _ =>
        ({ success := false
           error := some "Rate limit exceeded. Please try again later."
           message := some "Twitter API rate limit reached" }, effs)
      | UpdateOutcome.forbidden msg =>
        ({ success := false
           error := some ("Twitter API error: " ++ msg)
           message := some "Permission denied - check your Twitter app permissions" }, effs)
      | UpdateOutcome.exn msg =>
        ({ success := false
           error := some msg
           message := some "Failed to post tweet" }, effs)

/-- Environment variables read by FixedTwitterPublisher.__init__; the
sched_* fields are the SCHEDULE_TWITTER_* fallbacks. -/
structure Env where
  api_key : Option String := none
  sched_api_key : Option String := none
  api_secret : Option String := none
  sched_api_secret : Option String := none
  access_token : Option String := none
  sched_access_token : Option String := none
  access_token_secret : Option String := none
  sched_access_token_secret : Option String := none
  bearer_token : Option String := none
  sched_bearer_token : Option String := none
deriving DecidableEq

/-- In-memory state of FixedTwitterPublisher. -/
structure FixedState where
  api_key : Option String
  api_secret : Option String
  access_token : Option String
  access_token_secret : Option String
  bearer_token : Option String
  connected : Bool
  api_v1 : Option ClientCfg
deriving DecidableEq

/-- FixedTwitterPublisher._has_credentials: the four OAuth credentials
(bearer token excluded) are all truthy. -/
def hasCredentials (s : FixedState) : Bool :=
  truthy s.api_key && truthy s.api_secret &&
  truthy s.access_token && truthy s.access_token_secret

/-- Outcome of FixedTwitterPublisher._init_client: the tweepy import (or
handler construction) raised before the API object was built, the
verify_credentials test raised, or verification succeeded for the given
screen name. -/
inductive InitOutcome where
  | importError
  | authFail
  | authOk (screenName : String)
deriving DecidableEq

/-- Discriminator for the successful-verification outcome. -/
def InitOutcome.isAuthOk : InitOutcome → Bool
  | InitOutcome.authOk _ => true
  | _ => false

/-- FixedTwitterPublisher._init_client: builds tweepy.API with
wait_on_rate_limit=True, then tests verify_credentials; connected is set
to True only when that test succeeds. -/
def initClient (s : FixedState) (o : InitOutcome) : FixedState :=
  match o with
  | InitOutcome.importError => { s with connected := false }
  | InitOutcome.authFail => { s with api_v1 := some ⟨true⟩, connected := false }
  | InitOutcome.authOk _ => { s with api_v1 := some ⟨true⟩, connected := true }

/-- FixedTwitterPublisher.__init__: reads each credential from two
environment variables with Python `or`, starts disconnected and calls
_init_client only when all four credentials are present. -/
def mkFixedPublisher (e : Env) (o : InitOutcome) : FixedState :=
  let s : FixedState :=
    { api_key := pyOr e.api_key e.sched_api_key
      api_secret := pyOr e.api_secret e.sched_api_secret
      access_token := pyOr e.access_token e.sched_access_token
      access_token_secret := pyOr e.access_token_secret e.sched_access_token_secret
      bearer_token := pyOr e.bearer_token e.sched_bearer_token
      connected := false
      api_v1 := none }
  if hasCredentials s then initClient s o else s

/-- The credentials_present sub-dictionary of get_status. -/
structure CredsPresent where
  api_key : Bool
  api_secret : Bool
  access_token : Bool
  access_token_secret : Bool
  bearer_token : Bool
deriving DecidableEq

/-- Dictionary returned by FixedTwitterPublisher.get_status. -/
structure FixedStatus where
  connected : Bool
  configured : Bool
  mode : String
  credentials_present : CredsPresent
deriving DecidableEq

/-- FixedTwitterPublisher.get_status. -/
def getStatus (s : FixedState) : FixedStatus :=
  { connected := s.connected
    configured := hasCredentials s
    mode := if s.connected then "live" else "simulation"
    credentials_present :=
      ⟨truthy s.api_key, truthy s.api_secret, truthy s.access_token,
       truthy s.access_token_secret, truthy s.bearer_token⟩ }

/-- FixedTwitterPublisher.publish_tweet: posts via the v1.1 client when
connected, otherwise returns the simulation result (uuid-derived fake id
passed as `fakeId`) with no network call and no simulation flag in the
dictionary.  Every exception from update_status is caught by one generic
handler. -/
def fixedPublishTweet (s : FixedState) (content fakeId : String)
    (o : UpdateOutcome) : PublishResult × List Effect :=
  if s.connected && s.api_v1.isSome then
    match o with
    | UpdateOutcome.ok id screenName =>
      ({ success := true
         tweet_id := some (toString id)
         url := some ("https://twitter.com/" ++ screenName ++ "/status/" ++ toString id)
         message := some ("Tweet posted to @" ++ screenName) },
       [Effect.updateStatus content])
    | UpdateOutcome.tooManyRequests _ =>
      ({ success := false
         error := some "Too Many Requests"
         message := some "Failed to post tweet" }, [Effect.updateStatus content])
    | UpdateOutcome.forbidden msg =>
      ({ success := false
         error := some msg
         message := some "Failed to post tweet" }, [Effect.updateStatus content])
    | UpdateOutcome.exn msg =>
      ({ success := false
         error := some msg
         message := some "Failed to post tweet" }, [Effect.updateStatus content])
  else
    ({ success := true
       tweet_id := some fakeId
       url := some ("https://twitter.com/demo_account/status/" ++ fakeId)
       message := some "Tweet posted (simulation mode - add Twitter API keys for real posting)" },
     [])

/-- Outcome of the API v2 create_tweet call in TwitterPublisher. -/
inductive CreateOutcome where
  | ok (id : Nat)
  | exn (msg : String)
deriving DecidableEq

/-- TwitterPublisher.publish_tweet (twitter_publisher.py): with a client
and user info posts via create_tweet; with a client but no user info
posts with the "twitter_user" fallback name; with no client returns the
simulation result carrying simulation=True and no network call. -/
def twitterPublisherPublish (client : Bool) (user_info : Option TwitterUserInfo)
    (content fakeId : String) (o : CreateOutcome) : PublishResult × List Effect :=
  if client then
    match o with
    | CreateOutcome.exn msg =>
      ({ success := false
         error := some msg
         message := some "Failed to post tweet" }, [Effect.createTweet content])
    | CreateOutcome.ok id =>
      match user_info with
      | some ui =>
        ({ success := true
           tweet_id := some (toString id)
           url := some ("https://twitter.com/" ++ ui.username ++ "/status/" ++ toString id)
           username := some ui.username
           message := some ("Tweet posted to @" ++ ui.username) },
         [Effect.createTweet content])
      | none =>
        ({ success := true
           tweet_id := some (toString id)
           url := some ("https://twitter.com/twitter_user/status/" ++ toString id)
           username := some "twitter_user"
           message := some "Tweet posted successfully" },
         [Effect.createTweet content])
  else
    ({ success := true
       tweet_id := some fakeId
       url := some ("https://twitter.com/demo_user/status/" ++ fakeId)
       username := some "demo_user"
       message := some "Tweet posted (simulation mode)"
       simulation := some true }, [])

/-- A sample cached profile used in concrete states. -/
def uiAlice : UserInfo :=
  ⟨"alice", "Alice", 10, 5, "https://pbs.twimg.com/alice.jpg", "42"⟩

/-- A TwitterOAuthPublisher state that is fully connected: app
credentials, user tokens, cached profile and a live client. -/
def connectedOAuth : OAuthState :=
  { app_api_key := some "appkey"
    app_api_secret := some "appsecret"
    user_access_token := some "utoken"
    user_access_secret := some "usecret"
    user_info := some uiAlice
    client := some ⟨true⟩
    auth_handler := true
    request_token := none }

/-- A fresh, unconfigured TwitterOAuthPublisher (app credentials present,
no user token ever stored). -/
def oauthFresh : OAuthState := freshState (some "appkey") (some "appsecret")

/-- Environment with no Twitter variables set. -/
def emptyEnv : Env := {}

/-- Environment with the four required credentials set. -/
def envFull : Env :=
  { api_key := some "k", api_secret := some "s",
    access_token := some "t", access_token_secret := some "u" }

/-- A FixedTwitterPublisher constructed without credentials: simulation
mode. -/
def simPublisher : FixedState := mkFixedPublisher emptyEnv (InitOutcome.authOk "x")

/-- A FixedTwitterPublisher constructed with credentials whose
verify_credentials test succeeded: live mode. -/
def livePublisher : FixedState := mkFixedPublisher envFull (InitOutcome.authOk "alice")

/-- The in-repo OAuth 1.0a signing engine is
TwitterDirectAPI._create_oauth_signature
(src/scheduling/calendar_integration/scheduling_manager.py, lines
66-114), built on _percent_encode (lines 120-122), Python's hmac/hashlib
(HMAC-SHA1) and base64.b64encode.  The definitions below embed that code.
Bytes are Nats below 256; 32-bit words are Nats reduced mod 2^32.
The UTF-8 encoding of a string, as .encode('utf-8') produces it. -/
def utf8Bytes (s : String) : List Nat :=
  s.toUTF8.toList.map (fun b => b.toNat)

/-- A byte urllib.parse.quote never escapes: letters, digits and
the characters - . _ ~ (RFC 3986 unreserved). -/
def isUnreserved (b : Nat) : Bool :=
  (65 ≤ b && b ≤ 90) || (97 ≤ b && b ≤ 122) || (48 ≤ b && b ≤ 57) ||
  b == 45 || b == 46 || b == 95 || b == 126

/-- Uppercase hexadecimal digit for a value below 16. -/
def hexDigit (n : Nat) : Char :=
  if n < 10 then Char.ofNat (48 + n) else Char.ofNat (55 + n)

/-- Percent-encode a byte sequence: unreserved bytes pass through,
everything else becomes %XX with uppercase hex. -/
def percentEncodeBytes : List Nat → String
  | [] => ""
  | b :: rest =>
    (if isUnreserved b then String.singleton (Char.ofNat b)
     else "%" ++ String.singleton (hexDigit (b / 16)) ++ String.singleton (hexDigit (b % 16)))
    ++ percentEncodeBytes rest

/-- TwitterDirectAPI._percent_encode: urllib.parse.quote(str(s),
safe=''), i.e. every UTF-8 byte outside the unreserved set becomes %XX
with uppercase hex. -/
def percentEncode (s : String) : String :=
  percentEncodeBytes (utf8Bytes s)

/-- Python's tuple ordering on (key, value) string pairs, as used by
sorted(all_params.items()): by key, ties broken by value. -/
def pairLe (a b : String × String) : Bool :=
  if a.1 = b.1 then a.2 ≤ b.2 else a.1 < b.1

/-- Insertion into a sorted pair list. -/
def insertPair (p : String × String) : List (String × String) → List (String × String)
  | [] => [p]
  | q :: rest => if pairLe p q then p :: q :: rest else q :: insertPair p rest

/-- Insertion sort of the raw (unencoded) pairs, modelling
sorted(all_params.items()). -/
def sortPairs : List (String × String) → List (String × String)
  | [] => []
  | p :: rest => insertPair p (sortPairs rest)

/-- The oauth_params dictionary _create_oauth_signature builds (lines
72-79).  In the source oauth_timestamp comes from time.time() and
oauth_nonce from _generate_nonce() (secrets.token_bytes); the shallow
embedding takes these two ambient values as explicit arguments. -/
def oauthParamsOf (apiKey accessToken nonce timestamp : String) :
    List (String × String) :=
  [("oauth_consumer_key", apiKey),
   ("oauth_token", accessToken),
   ("oauth_signature_method", "HMAC-SHA1"),
   ("oauth_timestamp", timestamp),
   ("oauth_nonce", nonce),
   ("oauth_version", "1.0")]

/-- The dict merge all_params = params then oauth_params (line 82): on a
key collision the oauth value wins.  The request parameters come from a
Python dict, so their keys are unique. -/
def mergeParams (params oauthParams : List (String × String)) :
    List (String × String) :=
  params.filter (fun kv => oauthParams.all (fun ov => !(ov.1 == kv.1))) ++ oauthParams

/-- Parameter string (lines 85-89): sort the raw pairs, then join
enc(key)=enc(value) with &. -/
def paramString (allParams : List (String × String)) : String :=
  String.intercalate "&"
    ((sortPairs allParams).map (fun kv => percentEncode kv.1 ++ "=" ++ percentEncode kv.2))

/-- Signature base string (lines 92-96): UPPER(method) & enc(url) &
enc(parameter string). -/
def baseString (method url paramStr : String) : String :=
  method.toUpper ++ "&" ++ percentEncode url ++ "&" ++ percentEncode paramStr

/-- Signing key (lines 99-102): enc(api_secret) &
enc(access_token_secret). -/
def signingKey (apiSecret accessTokenSecret : String) : String :=
  percentEncode apiSecret ++ "&" ++ percentEncode accessTokenSecret

/-- Keep a word inside 32 bits. -/
def w32 (x : Nat) : Nat := x % 4294967296

/-- 32-bit left rotation. -/
def rotl (n x : Nat) : Nat :=
  w32 (x * 2 ^ n) ||| (x / 2 ^ (32 - n))

/-- 32-bit bitwise complement. -/
def not32 (x : Nat) : Nat := 4294967295 ^^^ x

/-- SHA-1 message padding: 0x80, zeros to 56 mod 64, then the bit length
as 8 big-endian bytes. -/
def sha1pad (msg : List Nat) : List Nat :=
  let padZeros := (119 - msg.length % 64) % 64
  msg ++ [128] ++ List.replicate padZeros 0 ++
    (List.range 8).map (fun i => msg.length * 8 / 2 ^ (8 * (7 - i)) % 256)

/-- The 80-entry word schedule of one 64-byte block. -/
def sha1words (block : List Nat) : List Nat :=
  let w0 := (List.range 16).map (fun i =>
    block.getD (4 * i) 0 * 16777216 + block.getD (4 * i + 1) 0 * 65536 +
    block.getD (4 * i + 2) 0 * 256 + block.getD (4 * i + 3) 0)
  (List.range 64).foldl (fun w i =>
    w ++ [rotl 1 (w.getD (i + 13) 0 ^^^ w.getD (i + 8) 0 ^^^ w.getD (i + 2) 0 ^^^ w.getD i 0)]) w0

/-- The SHA-1 round function. -/
def sha1f (t b c d : Nat) : Nat :=
  if t < 20 then (b &&& c) ||| (not32 b &&& d)
  else if t < 40 then b ^^^ c ^^^ d
  else if t < 60 then (b &&& c) ||| (b &&& d) ||| (c &&& d)
  else b ^^^ c ^^^ d

/-- The SHA-1 round constants. -/
def sha1k (t : Nat) : Nat :=
  if t < 20 then 1518500249
  else if t < 40 then 1859775393
  else if t < 60 then 2400959708
  else 3395469782

/-- Compression of one block into the running state. -/
def sha1compress (h : Nat × Nat × Nat × Nat × Nat) (block : List Nat) :
    Nat × Nat × Nat × Nat × Nat :=
  let w := sha1words block
  let r := (List.range 80).foldl (fun st t =>
    let temp := w32 (rotl 5 st.1 + sha1f t st.2.1 st.2.2.1 st.2.2.2.1 +
      st.2.2.2.2 + sha1k t + w.getD t 0)
    (temp, st.1, rotl 30 st.2.1, st.2.2.1, st.2.2.2.1)) h
  (w32 (h.1 + r.1), w32 (h.2.1 + r.2.1), w32 (h.2.2.1 + r.2.2.1),
   w32 (h.2.2.2.1 + r.2.2.2.1), w32 (h.2.2.2.2 + r.2.2.2.2))

/-- Big-endian bytes of a 32-bit word. -/
def word2bytes (x : Nat) : List Nat :=
  [x / 16777216 % 256, x / 65536 % 256, x / 256 % 256, x % 256]

/-- SHA-1 of a byte sequence (20-byte digest). -/
def sha1 (msg : List Nat) : List Nat :=
  let p := sha1pad msg
  let h := (List.range (p.length / 64)).foldl
    (fun h i => sha1compress h ((p.drop (64 * i)).take 64))
    (1732584193, 4023233417, 2562383102, 271733878, 3285377520)
  word2bytes h.1 ++ word2bytes h.2.1 ++ word2bytes h.2.2.1 ++
    word2bytes h.2.2.2.1 ++ word2bytes h.2.2.2.2

/-- HMAC-SHA1 with a 64-byte block size. -/
def hmacSha1 (key msg : List Nat) : List Nat :=
  let k0 := if key.length > 64 then sha1 key else key
  let k := k0 ++ List.replicate (64 - k0.length) 0
  sha1 ((k.map (fun b => b ^^^ 92)) ++ sha1 ((k.map (fun b => b ^^^ 54)) ++ msg))

/-- Character of a 6-bit group in standard base64. -/
def base64Char (n : Nat) : Char :=
  if n < 26 then Char.ofNat (65 + n)
  else if n < 52 then Char.ofNat (97 + n - 26)
  else if n < 62 then Char.ofNat (48 + n - 52)
  else if n = 62 then '+' else '/'

/-- Standard base64 with padding. -/
def base64Encode : List Nat → String
  | [] => ""
  | [b0] =>
    String.mk [base64Char (b0 / 4), base64Char (b0 % 4 * 16)] ++ "=="
  | [b0, b1] =>
    String.mk [base64Char (b0 / 4), base64Char (b0 % 4 * 16 + b1 / 16),
      base64Char (b1 % 16 * 4)] ++ "="
  | b0 :: b1 :: b2 :: rest =>
    String.mk [base64Char (b0 / 4), base64Char (b0 % 4 * 16 + b1 / 16),
      base64Char (b1 % 16 * 4 + b2 / 64), base64Char (b2 % 64)] ++
    base64Encode rest

/-- TwitterDirectAPI._create_oauth_signature (scheduling_manager.py
66-114): builds the oauth params, merges in the request params, sorts the
raw pairs into the parameter string, forms the base string and signing
key, computes base64(HMAC-SHA1(key, base)), and returns the oauth params
with oauth_signature appended.  The ambient time.time() timestamp and
secrets-based nonce are the explicit `nonce` and `timestamp`
arguments. -/
def createOauthSignature (apiKey apiSecret accessToken accessTokenSecret : String)
    (method url : String) (params : List (String × String))
    (nonce timestamp : String) : List (String × String) :=
  let oauthParams := oauthParamsOf apiKey accessToken nonce timestamp
  let paramStr := paramString (mergeParams params oauthParams)
  let baseStr := baseString method url paramStr
  let key := signingKey apiSecret accessTokenSecret
  oauthParams ++
    [("oauth_signature", base64Encode (hmacSha1 (utf8Bytes key) (utf8Bytes baseStr)))]

/-- The request parameter set of the spec's section 8 vector (the
oauth_* parameters are added by _create_oauth_signature itself). -/
def rfcParams : List (String × String) :=
  [("status", "Hello Ljubljana")]

/-- State of a fresh publisher after get_authorization_url succeeded and
stored the request token "reqtok". -/
def afterAuthUrl : OAuthState :=
  (getAuthorizationUrl oauthFresh (some "reqtok")).1

/-- State after a first complete_authorization succeeded from
afterAuthUrl (exchange returned tokens, verify_credentials returned a
profile). -/
def afterFirstExchange : OAuthState :=
  (completeAuthorization afterAuthUrl "verif1"
    (ExchangeOutcome.exchanged "atok" "asec" (some uiAlice)) "2024").1

/-- Detects a rename operation in an effect trace. -/
def isRename : Effect → Bool
  | Effect.renameFile _ _ => true
  | _ => false

/-- Helper: _create_client only touches client and user_info; the stored
tokens, app credentials and request token are untouched. -/
theorem createClient_state (s : OAuthState) (v : Option UserInfo) (now : String) :
    (createClient s v now).1.user_access_token = s.user_access_token ∧
    (createClient s v now).1.user_access_secret = s.user_access_secret ∧
    (createClient s v now).1.request_token = s.request_token := by
  unfold createClient
  split
  · cases v <;> simp
  · simp

/-- C10: disconnect clears the in-memory access token, token secret,
user info and client unconditionally, so even when the token-file removal
fails (return value False), is_connected() is False afterwards. -/
theorem disconnect_clears_memory (s : OAuthState) (fe rf : Bool) :
    (disconnect s fe rf).1.user_access_token = none ∧
    (disconnect s fe rf).1.user_access_secret = none ∧
    (disconnect s fe rf).1.user_info = none ∧
    (disconnect s fe rf).1.client = none ∧
    isConnected (disconnect s fe rf).1 = false ∧
    (disconnect s true true).2.1 = false := by
  unfold disconnect isConnected
  cases fe <;> cases rf <;> simp

/-- Helper: loading a parsed token file always installs exactly the
token and secret read from the file, whether or not a client is then
created. -/
theorem loadValid_tokens (s : OAuthState) (j : TokenJson) (v : Option UserInfo)
    (now2 : String) :
    (loadUserTokens s (FileState.valid j) v now2).1.user_access_token = j.access_token ∧
    (loadUserTokens s (FileState.valid j) v now2).1.user_access_secret = j.access_token_secret := by
  unfold loadUserTokens
  dsimp only
  split
  · exact ⟨(createClient_state _ _ _).1, (createClient_state _ _ _).2.1⟩
  · exact ⟨rfl, rfl⟩

/-- C7: _save_user_tokens followed by _load_user_tokens restores exactly
the saved access token and secret, and loading after the token file was
removed (disconnect) yields a state with no tokens. -/
theorem token_roundtrip (t ts : String) (ui : Option UserInfo)
    (now now2 : String) (ak aps : Option String) (v : Option UserInfo)
    (fs : FileState) :
    (loadUserTokens (freshState ak aps) (saveUserTokens t ts ui now).1 v now2).1.user_access_token = some t ∧
    (loadUserTokens (freshState ak aps) (saveUserTokens t ts ui now).1 v now2).1.user_access_secret = some ts ∧
    loadUserTokens (freshState ak aps) (clearFile fs) v now2 = (freshState ak aps, []) :=
  ⟨(loadValid_tokens _ _ _ _).1, (loadValid_tokens _ _ _ _).2, rfl⟩

/-- C6: _load_user_tokens on a missing or unparsable token file leaves
the fresh state untouched (no token, no client, no network call) instead
of raising, and a parsed file whose access_token entry is missing or
empty never creates a client, so the publisher stays disconnected. -/
theorem load_degrades_to_unauthenticated :
    (∀ ak aps v now, loadUserTokens (freshState ak aps) FileState.absent v now =
        (freshState ak aps, []) ∧
      loadUserTokens (freshState ak aps) FileState.unparsable v now =
        (freshState ak aps, [])) ∧
    (∀ ak aps v now j, truthy j.access_token = false →
      isConnected (loadUserTokens (freshState ak aps) (FileState.valid j) v now).1 = false ∧
      (loadUserTokens (freshState ak aps) (FileState.valid j) v now).2 = []) := by
  constructor
  · exact fun ak aps v now => ⟨rfl, rfl⟩
  · intro ak aps v now j h
    unfold loadUserTokens
    dsimp only
    rw [if_neg]
    · exact ⟨rfl, rfl⟩
    · simp [h]

/-- Witness for C6 at a concrete missing file and at a concrete parsed
file with no access_token entry. -/
theorem load_degrades_to_unauthenticated_witness :
    loadUserTokens (freshState (some "appkey") (some "appsecret")) FileState.absent none "2024" =
      (freshState (some "appkey") (some "appsecret"), []) ∧
    isConnected (loadUserTokens oauthFresh
      (FileState.valid ⟨none, none, none, "2024"⟩) none "2024").1 = false :=
  ⟨(load_degrades_to_unauthenticated.1 (some "appkey") (some "appsecret") none "2024").1,
   (load_degrades_to_unauthenticated.2 (some "appkey") (some "appsecret") none "2024"
     ⟨none, none, none, "2024"⟩ (by decide)).1⟩

/-- C3 counterexample: a concrete _save_user_tokens call opens the final
credential file itself in write mode and performs no rename of a
temporary file — the write is truncate-in-place, not atomic. -/
theorem save_not_atomic_counterexample :
    (saveUserTokens "tok" "sec" none "2024-01-01").2 =
      [Effect.makeDirs "data", Effect.openWrite tokenFile] ∧
    Effect.openWrite tokenFile ∈ (saveUserTokens "tok" "sec" none "2024-01-01").2 ∧
    (saveUserTokens "tok" "sec" none "2024-01-01").2.countP isRename = 0 := by
  decide

/-- C3 amended: every save writes the token JSON object by opening
data/twitter_user_tokens.json directly in write mode after ensuring the
directory exists; no temporary file and no rename are involved. -/
theorem save_writes_in_place (t ts : String) (ui : Option UserInfo) (now : String) :
    (saveUserTokens t ts ui now).1 = FileState.valid ⟨some t, some ts, ui, now⟩ ∧
    (saveUserTokens t ts ui now).2 = [Effect.makeDirs "data", Effect.openWrite tokenFile] ∧
    (saveUserTokens t ts ui now).2.countP isRename = 0 :=
  ⟨rfl, rfl, rfl⟩

/-- C9: connected=True in FixedTwitterPublisher only arises when all
four credentials were present and the verify_credentials test at
initialization succeeded, and get_status reports mode "live" exactly when
connected is True. -/
theorem fixed_connected_iff_live (e : Env) (o : InitOutcome) :
    ((mkFixedPublisher e o).connected = true →
      hasCredentials (mkFixedPublisher e o) = true ∧ o.isAuthOk = true) ∧
    ((getStatus (mkFixedPublisher e o)).mode = "live" ↔
      (mkFixedPublisher e o).connected = true) := by
  cases o <;>
    simp only [mkFixedPublisher, initClient, getStatus, InitOutcome.isAuthOk] <;>
    split <;>
    simp_all [hasCredentials, getStatus]

/-- Witness for C9: with the four credentials set and a successful
verification, the publisher is connected, configured and marked
authOk. -/
theorem fixed_connected_iff_live_witness :
    hasCredentials (mkFixedPublisher envFull (InitOutcome.authOk "alice")) = true ∧
    (InitOutcome.authOk "alice").isAuthOk = true :=
  (fixed_connected_iff_live envFull (InitOutcome.authOk "alice")).1 (by decide)

/-- C1 counterexample: with no stored token, TwitterOAuthPublisher's
publish returns success=False (a login-required error), and
FixedTwitterPublisher's simulation result carries no simulated flag at
all — so the uniform success=True/simulated=True contract fails on two of
the three publishers. -/
theorem unconfigured_publish_counterexample :
    (oauthPublishTweet oauthFresh "hello" none (UpdateOutcome.ok 1 "alice")).1.success = false ∧
    (fixedPublishTweet simPublisher "hello" "fake123" (UpdateOutcome.ok 1 "alice")).1.simulation = none := by
  decide

/-- C1 amended: with no credentials, TwitterPublisher returns
success=True, simulation=True and a synthetic demo_user url with no
network call; FixedTwitterPublisher returns success=True and a synthetic
demo_account url with no network call but no simulated flag; and
TwitterOAuthPublisher instead returns success=False with a login-required
error, also without a network call. -/
theorem unconfigured_publish_behaviour (content fakeId : String)
    (ti : Option TwitterUserInfo) (co : CreateOutcome) (v : Option UserInfo)
    (o : UpdateOutcome) :
    (twitterPublisherPublish false ti content fakeId co).1.success = true ∧
    (twitterPublisherPublish false ti content fakeId co).1.simulation = some true ∧
    (twitterPublisherPublish false ti content fakeId co).1.url =
      some ("https://twitter.com/demo_user/status/" ++ fakeId) ∧
    (twitterPublisherPublish false ti content fakeId co).2 = [] ∧
    (fixedPublishTweet simPublisher content fakeId o).1.success = true ∧
    (fixedPublishTweet simPublisher content fakeId o).1.url =
      some ("https://twitter.com/demo_account/status/" ++ fakeId) ∧
    (fixedPublishTweet simPublisher content fakeId o).1.simulation = none ∧
    (fixedPublishTweet simPublisher content fakeId o).2 = [] ∧
    (oauthPublishTweet oauthFresh content v o).1.success = false ∧
    (oauthPublishTweet oauthFresh content v o).2 = [] := by
  have hs : (simPublisher.connected && simPublisher.api_v1.isSome) = false := by decide
  simp [twitterPublisherPublish, fixedPublishTweet, hs, oauthPublishTweet,
    oauthFresh, freshState]

set_option maxRecDepth 4000 in
/-- C2 counterexample: a publisher with a live client sends the empty
tweet text (and a 300-character text) straight to update_status — the
invalid text reaches the publish endpoint instead of being rejected with
a ValidationError before the network call. -/
theorem publish_no_validation_counterexample :
    (oauthPublishTweet connectedOAuth "" none (UpdateOutcome.ok 7 "alice")).2 =
      [Effect.updateStatus ""] ∧
    (oauthPublishTweet connectedOAuth "" none (UpdateOutcome.ok 7 "alice")).1.success = true ∧
    (fixedPublishTweet livePublisher (String.mk (List.replicate 300 'a')) "f"
        (UpdateOutcome.ok 7 "alice")).2 =
      [Effect.updateStatus (String.mk (List.replicate 300 'a'))] := by
  decide

/-- C2 amended: publish performs no local validation of the text: with a
connected client every text, empty and over-limit texts included, is sent
to the publish endpoint in exactly one network call; without a client the
only pre-network rejection is the connectivity error, never a
ValidationError. -/
theorem publish_no_validation (content fakeId : String) (v : Option UserInfo)
    (o : UpdateOutcome) :
    (oauthPublishTweet connectedOAuth content v o).2 = [Effect.updateStatus content] ∧
    (fixedPublishTweet livePublisher content fakeId o).2 = [Effect.updateStatus content] ∧
    (oauthPublishTweet oauthFresh content v o).1.error =
      some "Not connected to Twitter. Please login first." := by
  have hl : (livePublisher.connected && livePublisher.api_v1.isSome) = true := by decide
  refine ⟨?_, ?_, ?_⟩
  · cases o <;> simp [oauthPublishTweet, connectedOAuth]
  · cases o <;> simp [fixedPublishTweet, hl]
  · simp [oauthPublishTweet, oauthFresh, freshState]

/-- C8 counterexample: the publish result for a 429 with a provider retry
hint of 60 seconds is identical to the one with no hint (no hint is
carried), and _create_client builds the client with
wait_on_rate_limit=True, so the library waits on rate limits
automatically instead of leaving backoff to the caller. -/
theorem rate_limit_counterexample :
    (oauthPublishTweet connectedOAuth "hi" none (UpdateOutcome.tooManyRequests (some 60))).1 =
      (oauthPublishTweet connectedOAuth "hi" none (UpdateOutcome.tooManyRequests none)).1 ∧
    (createClient connectedOAuth (some uiAlice) "2024").1.client = some ⟨true⟩ := by
  decide

/-- C8 amended: on a 429 the OAuth publisher returns success=False with
the fixed message "Rate limit exceeded. Please try again later.",
discarding any provider retry hint; moreover every client the code
creates (TwitterOAuthPublisher._create_client and
FixedTwitterPublisher._init_client) is constructed with
wait_on_rate_limit=True, so the library itself waits on rate limits. -/
theorem rate_limit_behaviour (content : String) (v : Option UserInfo)
    (hint : Option Nat) :
    (oauthPublishTweet connectedOAuth content v (UpdateOutcome.tooManyRequests hint)).1.success = false ∧
    (oauthPublishTweet connectedOAuth content v (UpdateOutcome.tooManyRequests hint)).1.error =
      some "Rate limit exceeded. Please try again later." ∧
    (oauthPublishTweet connectedOAuth content v (UpdateOutcome.tooManyRequests hint)).1 =
      (oauthPublishTweet connectedOAuth content v (UpdateOutcome.tooManyRequests none)).1 ∧
    (∀ s vr now, (createClient s vr now).2.1 = true →
      (createClient s vr now).1.client = some ⟨true⟩) ∧
    (∀ e o, ((mkFixedPublisher e o).api_v1).all (fun c => c.wait_on_rate_limit) = true) := by
  refine ⟨by simp [oauthPublishTweet, connectedOAuth], by simp [oauthPublishTweet, connectedOAuth],
    by simp [oauthPublishTweet, connectedOAuth], ?_, ?_⟩
  · intro s vr now h
    unfold createClient at h ⊢
    split at h
    · cases vr <;> simp_all
    · simp_all
  · intro e o
    cases o <;> simp [mkFixedPublisher, initClient] <;> split <;> simp

/-- Witness for C8 at a fully configured state whose verification
succeeded: _create_client returns True and the client it stored has
wait_on_rate_limit=True. -/
theorem rate_limit_behaviour_witness :
    (createClient connectedOAuth (some uiAlice) "2024").1.client = some ⟨true⟩ :=
  (rate_limit_behaviour "hi" none (some 60)).2.2.2.1 connectedOAuth (some uiAlice) "2024"
    (by decide)

/-- C5 counterexample: after a successful token exchange the request
token "reqtok" is still stored, so a second complete_authorization passes
the guard, re-sends the access-token exchange over the network with the
stale request token, and even returns True when the provider accepts —
it does not fail cleanly without reusing the stale RequestToken. -/
theorem stale_request_token_counterexample :
    afterFirstExchange.request_token = some "reqtok" ∧
    (completeAuthorization afterFirstExchange "verif2"
      (ExchangeOutcome.exchanged "atok2" "asec2" (some uiAlice)) "2024").2.1 = true ∧
    Effect.getAccessToken "reqtok" "verif2" ∈
      (completeAuthorization afterFirstExchange "verif2"
        (ExchangeOutcome.exchanged "atok2" "asec2" (some uiAlice)) "2024").2.2 := by
  decide

/-- C5 amended: complete_authorization with no stored request token
(before get_authorization_url) returns False immediately, makes no
network call and leaves the state unchanged; but whenever a request token
is stored it is sent in the exchange, and a successful exchange does not
discard it, so a second call re-uses the stale request token over the
network. -/
theorem complete_authorization_guard :
    (∀ s v o now, s.request_token = none →
      completeAuthorization s v o now = (s, false, [])) ∧
    (∀ s v o now rt, s.request_token = some rt → s.auth_handler = true →
      Effect.getAccessToken rt v ∈ (completeAuthorization s v o now).2.2) ∧
    (∀ s v t ts vr now,
      (completeAuthorization s v (ExchangeOutcome.exchanged t ts vr) now).1.request_token =
        s.request_token) := by
  refine ⟨?_, ?_, ?_⟩
  · intro s v o now h
    unfold completeAuthorization
    rw [h]
  · intro s v o now rt h1 h2
    unfold completeAuthorization
    rw [h1]
    cases o <;> simp [h2]
  · intro s v t ts vr now
    unfold completeAuthorization
    cases h : s.request_token with
    | none => exact h
    | some rt =>
      by_cases ha : s.auth_handler = false
      · simp only [if_pos ha]
        exact h
      · simp only [if_neg ha]
        rw [(createClient_state _ _ _).2.2]

/-- Witness for C5: a fresh publisher rejects complete_authorization
immediately, and once a request token is stored the exchange call carries
it. -/
theorem complete_authorization_guard_witness :
    completeAuthorization oauthFresh "verif" ExchangeOutcome.failure "2024" =
      (oauthFresh, false, []) ∧
    Effect.getAccessToken "reqtok" "verif2" ∈
      (completeAuthorization afterAuthUrl "verif2" ExchangeOutcome.failure "2024").2.2 :=
  ⟨complete_authorization_guard.1 oauthFresh "verif" ExchangeOutcome.failure "2024" (by decide),
   complete_authorization_guard.2.1 afterAuthUrl "verif2" ExchangeOutcome.failure "2024"
     "reqtok" (by decide) (by decide)⟩

/-- C4: TwitterDirectAPI._create_oauth_signature is deterministic: two
calls with identical method, url, params, consumer key and secret, token
and token secret, and identical ambient nonce and timestamp (generated
inside the source from secrets and time.time(), explicit arguments in
the embedding) return identical oauth parameter dictionaries, the
oauth_signature string included. -/
theorem sign_deterministic (ak1 ak2 as1 as2 at1 at2 ats1 ats2 m1 m2 u1 u2 : String)
    (p1 p2 : List (String × String)) (n1 n2 t1 t2 : String)
    (hak : ak1 = ak2) (has : as1 = as2) (hat : at1 = at2) (hats : ats1 = ats2)
    (hm : m1 = m2) (hu : u1 = u2) (hp : p1 = p2) (hn : n1 = n2) (ht : t1 = t2) :
    createOauthSignature ak1 as1 at1 ats1 m1 u1 p1 n1 t1 =
      createOauthSignature ak2 as2 at2 ats2 m2 u2 p2 n2 t2 := by
  subst hak has hat hats hm hu hp hn ht
  rfl

/-- Witness for C4 at the spec's section 8 vector inputs (consumer key
ck, token tk, nonce abc123, timestamp 1318622958, one status
parameter). -/
theorem sign_deterministic_witness :
    createOauthSignature "ck" "cs" "tk" "ts" "POST"
        "https://api.example.com/1/statuses/update.json" rfcParams "abc123" "1318622958" =
      createOauthSignature "ck" "cs" "tk" "ts" "POST"
        "https://api.example.com/1/statuses/update.json" rfcParams "abc123" "1318622958" :=
  sign_deterministic "ck" "ck" "cs" "cs" "tk" "tk" "ts" "ts" "POST" "POST"
    "https://api.example.com/1/statuses/update.json"
    "https://api.example.com/1/statuses/update.json" rfcParams rfcParams
    "abc123" "abc123" "1318622958" "1318622958"
    rfl rfl rfl rfl rfl rfl rfl rfl rfl

end Freyja
